import Mathlib

/-!
# Metrics service of `api5back` (`src/service/service.go`)

A shallow embedding of `MetricsService.GetMetrics` and `ParseStringToPgtypeDate`.

* Go's multiple return values `(x, err)` are pairs `X × Option GoError`; a nil pointer or nil
  error is `none`.
* The collaborators that live outside `service.go` (`time.Parse`, the execution of an `ent`
  query, the three functions of package `processing`) are fields of an environment `Env`;
  the theorems about `GetMetrics` hold for every environment.
* Calls to the data layer and to the aggregation functions are recorded, in order, in the
  `calls` log of the `World` that `GetMetrics` threads through.
-/

namespace Service

/-! ## Go errors and `fmt.Errorf` -/

/-- A Go `error` value: its message, and for an error built with the verb `%w` the error it
wraps. -/
inductive GoError where
  | errorf (msg : String)
  | wrapf (msg : String) (inner : GoError)
  deriving DecidableEq, Repr

/-- The method `Error()`. -/
def GoError.Error : GoError → String
  | .errorf msg => msg
  | .wrapf msg _ => msg

/-- The method `Unwrap()` (what `errors.Unwrap` returns). -/
def GoError.Unwrap : GoError → Option GoError
  | .errorf _ => none
  | .wrapf _ inner => some inner

/-- The call `fmt.Errorf(pre + "%w", err)`: the text of `err` is appended and `err` is wrapped. -/
def ErrorfW (pre : String) (err : GoError) : GoError :=
  .wrapf (pre ++ err.Error) err

/-- The call `fmt.Errorf(pre + "%v", err)`: the text of `err` is appended, nothing is wrapped. -/
def ErrorfV (pre : String) (err : GoError) : GoError :=
  .errorf (pre ++ err.Error)

/-- The elements of a slice of errors as `%v` prints them: each element's `Error()` text,
separated by one space. -/
def sprintElems : List GoError → String
  | [] => ""
  | [e] => e.Error
  | e :: es => e.Error ++ " " ++ sprintElems es

/-- The call `fmt.Errorf(pre + "%v", errs)` for a slice `errs []error`: the slice prints as
its elements between square brackets. -/
def ErrorfVSlice (pre : String) (errs : List GoError) : GoError :=
  .errorf (pre ++ "[" ++ sprintElems errs ++ "]")

/-- Substring relation on strings (`strings.Contains hay needle`). -/
def Contains (hay needle : String) : Prop :=
  needle.data <:+: hay.data

instance (hay needle : String) : Decidable (Contains hay needle) :=
  inferInstanceAs (Decidable (needle.data <:+: hay.data))

/-! ## `time.Time` and `pgtype.Date` -/

/-- The calendar-date part of a `time.Time` (all that a `pgtype.Date` carries to the
database). -/
structure Time where
  year : Nat
  month : Nat
  day : Nat
  deriving DecidableEq, Repr

/-- The zero `time.Time`, January 1 of year 1. -/
def Time.zero : Time := ⟨1, 1, 1⟩

/-- Chronological order of calendar dates. -/
def Time.le (a b : Time) : Prop :=
  a.year < b.year ∨ (a.year = b.year ∧ (a.month < b.month ∨ (a.month = b.month ∧ a.day ≤ b.day)))

instance : LE Time := ⟨Time.le⟩

instance (a b : Time) : Decidable (a ≤ b) :=
  inferInstanceAs (Decidable (a.year < b.year ∨
    (a.year = b.year ∧ (a.month < b.month ∨ (a.month = b.month ∧ a.day ≤ b.day)))))

/-- The type `pgtype.InfinityModifier`; `Finite` is its zero value. -/
inductive InfinityModifier where
  | Finite
  | Infinity
  | NegativeInfinity
  deriving DecidableEq, Repr

/-- The struct `pgtype.Date`. -/
structure Date where
  Time : Time
  InfinityModifier : InfinityModifier
  Valid : Bool
  deriving DecidableEq, Repr

/-- The zero value of `pgtype.Date` (what the named result `pgDate` holds until assigned). -/
def Date.zero : Date := ⟨Time.zero, .Finite, false⟩

/-- `ParseStringToPgtypeDate` (service.go, lines 159-172); `timeParse` stands for
`time.Parse`. -/
def ParseStringToPgtypeDate (timeParse : String → String → Time × Option GoError)
    (layout dateString : String) : Date × Option GoError :=
  let pgDate : Date := Date.zero
  match timeParse layout dateString with
  | (_, some err) => (pgDate, some (ErrorfV "failed to parse date: " err))
  | (t, none) => ({ Time := t, InfinityModifier := .Finite, Valid := true }, none)

/-! ## Entities, predicates and queries of the generated `ent` package -/

/-- The entity `ent.DimVacancy`: a title and a closing date. -/
structure DimVacancy where
  Title : String
  ClosingDate : Time
  deriving DecidableEq, Repr

/-- The entity `ent.DimProcess`: a title. -/
structure DimProcess where
  Title : String
  deriving DecidableEq, Repr

/-- The entity `ent.FactHiringProcess` with its edges: the vacancy and the process it refers
to (absent when not loaded or not set) and its candidate associations. -/
structure FactHiringProcess where
  ID : Nat
  DimVacancy : Option DimVacancy
  DimProcess : Option DimProcess
  HiringProcessCandidates : List Nat
  deriving DecidableEq, Repr

/-- Predicates of package `dimprocess` that `GetMetrics` builds. -/
inductive DimProcessPredicate where
  | TitleContains (v : String)
  deriving DecidableEq, Repr

/-- Predicates of package `dimvacancy` that `GetMetrics` builds. -/
inductive DimVacancyPredicate where
  | TitleContains (v : String)
  | ClosingDateGTE (v : Date)
  | ClosingDateLTE (v : Date)
  deriving DecidableEq, Repr

/-- Predicates of package `facthiringprocess` that `GetMetrics` builds. -/
inductive FactHiringProcessPredicate where
  | HasDimProcessWith (p : DimProcessPredicate)
  | HasDimVacancyWith (p : DimVacancyPredicate)
  deriving DecidableEq, Repr

/-- The builder `ent.FactHiringProcessQuery`: the eager-loads requested and the predicates
attached so far, in the order of attachment. -/
structure FactHiringProcessQuery where
  withDimVacancy : Bool
  withDimProcess : Bool
  withHiringProcessCandidates : Bool
  predicates : List FactHiringProcessPredicate
  deriving DecidableEq, Repr

/-- The call `client.FactHiringProcess.Query()`: nothing loaded, nothing attached. -/
def FactHiringProcessQuery.Query : FactHiringProcessQuery :=
  ⟨false, false, false, []⟩

/-- The builder method `WithDimVacancy()`. -/
def FactHiringProcessQuery.WithDimVacancy (q : FactHiringProcessQuery) :
    FactHiringProcessQuery :=
  { q with withDimVacancy := true }

/-- The builder method `WithDimProcess()`. -/
def FactHiringProcessQuery.WithDimProcess (q : FactHiringProcessQuery) :
    FactHiringProcessQuery :=
  { q with withDimProcess := true }

/-- The builder method `WithHiringProcessCandidates()`. -/
def FactHiringProcessQuery.WithHiringProcessCandidates (q : FactHiringProcessQuery) :
    FactHiringProcessQuery :=
  { q with withHiringProcessCandidates := true }

/-- The builder method `Where(p)`: one more predicate is attached. -/
def FactHiringProcessQuery.Where (q : FactHiringProcessQuery)
    (p : FactHiringProcessPredicate) : FactHiringProcessQuery :=
  { q with predicates := q.predicates ++ [p] }

/-! ## The service -/

/-- The struct `GetMetricsFilter`. -/
structure GetMetricsFilter where
  HiringProcessName : String
  VacancyName : String
  StartDate : String
  EndDate : String
  deriving DecidableEq, Repr

/-- The struct `MetricsData`; `V`, `C` and `A` stand for the result types
`processing.VacancyStatusSummary`, `processing.CardInfos` and
`processing.AverageHiringTimePerMonth`. -/
structure MetricsData (V C A : Type) where
  VacancySummary : V
  CardInfos : C
  AverageHiringTime : A
  deriving DecidableEq, Repr

/-- The collaborators of `GetMetrics` that are not part of `service.go`: `time.Parse`, the
execution `query.All(ctx)` of a query against the current contents of the fact table, and the
three aggregation functions of package `processing`. Each returns a Go pair of a value and an
error. -/
structure Env (V C A : Type) where
  timeParse : String → String → Time × Option GoError
  All : FactHiringProcessQuery → List FactHiringProcess →
    List FactHiringProcess × Option GoError
  ComputingCardInfo : List FactHiringProcess → C × Option GoError
  GenerateVacancyStatusSummary : List FactHiringProcess → V × Option GoError
  GenerateAverageHiringTime : List FactHiringProcess → A × Option GoError

/-- A call that leaves `GetMetrics`: the execution of a query, or one of the aggregations on a
row set. -/
inductive Call where
  | All (q : FactHiringProcessQuery)
  | ComputingCardInfo (rows : List FactHiringProcess)
  | GenerateVacancyStatusSummary (rows : List FactHiringProcess)
  | GenerateAverageHiringTime (rows : List FactHiringProcess)
  deriving DecidableEq, Repr

/-- What a request runs against: the contents of the fact table, and the log of the calls
made so far. -/
structure World where
  table : List FactHiringProcess
  calls : List Call
  deriving DecidableEq, Repr

/-- One more call in the log. -/
def World.record (w : World) (c : Call) : World :=
  { w with calls := w.calls ++ [c] }

variable {V C A : Type}

/-- Lines 42-109 of `GetMetrics`: the query is built from the filter. A non-nil error is the
error `GetMetrics` returns at once, from line 75 or line 96. -/
def buildQuery (env : Env V C A) (filter : GetMetricsFilter) :
    FactHiringProcessQuery × Option GoError :=
  let query := FactHiringProcessQuery.Query.WithDimVacancy.WithDimProcess.WithHiringProcessCandidates
  let query :=
    if filter.HiringProcessName ≠ "" then
      query.Where (.HasDimProcessWith (.TitleContains filter.HiringProcessName))
    else query
  let query :=
    if filter.VacancyName ≠ "" then
      query.Where (.HasDimVacancyWith (.TitleContains filter.VacancyName))
    else query
  let afterStart : FactHiringProcessQuery × Option GoError :=
    if filter.StartDate ≠ "" then
      match ParseStringToPgtypeDate env.timeParse "2006-01-02" filter.StartDate with
      | (_, some err) => (query, some (ErrorfW "could not parse `StartDate`: " err))
      | (hiringProcessStartDate, none) =>
        (query.Where (.HasDimVacancyWith (.ClosingDateGTE hiringProcessStartDate)), none)
    else (query, none)
  match afterStart with
  | (query, some err) => (query, some err)
  | (query, none) =>
    if filter.EndDate ≠ "" then
      match ParseStringToPgtypeDate env.timeParse "2006-01-02" filter.EndDate with
      | (_, some err) => (query, some (ErrorfW "could not parse `EndDate`: " err))
      | (hiringProcessEndDate, none) =>
        (query.Where (.HasDimVacancyWith (.ClosingDateLTE hiringProcessEndDate)), none)
    else (query, none)

/-- Lines 119-156 of `GetMetrics`: the three aggregations run on the row set, their errors are
collected, and either the combined error or the data is returned. -/
def aggregate (env : Env V C A) (hiringProcess : List FactHiringProcess) (w : World) :
    (Option (MetricsData V C A) × Option GoError) × World :=
  let errors : List GoError := []
  let (cardInfo, err) := env.ComputingCardInfo hiringProcess
  let w := w.record (.ComputingCardInfo hiringProcess)
  let errors :=
    match err with
    | some err => errors ++ [ErrorfW "could not calculate `CardInfo` data: " err]
    | none => errors
  let (vacancyInfo, err) := env.GenerateVacancyStatusSummary hiringProcess
  let w := w.record (.GenerateVacancyStatusSummary hiringProcess)
  let errors :=
    match err with
    | some err => errors ++ [ErrorfW "could not generate `VacancyStatus` summary: " err]
    | none => errors
  let (averageHiringTime, err) := env.GenerateAverageHiringTime hiringProcess
  let w := w.record (.GenerateAverageHiringTime hiringProcess)
  let errors :=
    match err with
    | some err => errors ++ [ErrorfW "could not generate `AvgHiringTime` data: " err]
    | none => errors
  if errors.length > 0 then
    ((none, some (ErrorfVSlice "failed to get metrics: " errors)), w)
  else
    ((some { CardInfos := cardInfo, VacancySummary := vacancyInfo,
             AverageHiringTime := averageHiringTime }, none), w)

/-- `MetricsService.GetMetrics` (service.go, lines 38-157). -/
def GetMetrics (env : Env V C A) (filter : GetMetricsFilter) (w : World) :
    (Option (MetricsData V C A) × Option GoError) × World :=
  match buildQuery env filter with
  | (_, some err) => ((none, some err), w)
  | (query, none) =>
    let (hiringProcess, err) := env.All query w.table
    let w := w.record (.All query)
    match err with
    | some err => ((none, some (ErrorfW "could not retrieve `FactHiringProcess` data: " err)), w)
    | none => aggregate env hiringProcess w

/-! ## Execution of a query -/

/-- Modelled from the spec: the predicate `dimprocess.TitleContains` of the generated `ent`
package, which is not part of the sources at hand ("require the associated Process title to
contain it"). -/
def DimProcessPredicate.eval : DimProcessPredicate → DimProcess → Bool
  | .TitleContains v, x => decide (Contains x.Title v)

/-- Modelled from the spec: the predicates of the generated package `dimvacancy`, which is not
part of the sources at hand ("require the associated Vacancy title to contain it", "require
Vacancy closing date ≥ parsed date", "require Vacancy closing date ≤ parsed date"). -/
def DimVacancyPredicate.eval : DimVacancyPredicate → DimVacancy → Bool
  | .TitleContains v, x => decide (Contains x.Title v)
  | .ClosingDateGTE v, x => decide (v.Time ≤ x.ClosingDate)
  | .ClosingDateLTE v, x => decide (x.ClosingDate ≤ v.Time)

/-- Modelled from the spec: the predicates `HasDimProcessWith` and `HasDimVacancyWith` of the
generated package `facthiringprocess`, which is not part of the sources at hand: the row has
an associated entity, and that entity satisfies the inner predicate. -/
def FactHiringProcessPredicate.eval : FactHiringProcessPredicate → FactHiringProcess → Bool
  | .HasDimProcessWith p, r =>
    match r.DimProcess with
    | some x => p.eval x
    | none => false
  | .HasDimVacancyWith p, r =>
    match r.DimVacancy with
    | some x => p.eval x
    | none => false

/-- Modelled from the spec: eager-loading in the generated `ent` package, which is not part of
the sources at hand: a returned row carries an edge only when the query asked for it. -/
def loadEdges (q : FactHiringProcessQuery) (r : FactHiringProcess) : FactHiringProcess :=
  { ID := r.ID
    DimVacancy := if q.withDimVacancy then r.DimVacancy else none
    DimProcess := if q.withDimProcess then r.DimProcess else none
    HiringProcessCandidates :=
      if q.withHiringProcessCandidates then r.HiringProcessCandidates else [] }

/-- Modelled from the spec: the method `All` of the generated `ent` query on a reachable
database, which is not part of the sources at hand ("predicates combined with AND, with
eager-loading of related entities"): the rows of the table that satisfy every attached
predicate, each with the requested edges. -/
def entAll (q : FactHiringProcessQuery) (table : List FactHiringProcess) :
    List FactHiringProcess × Option GoError :=
  ((table.filter (fun r => q.predicates.all (fun p => p.eval r))).map (loadEdges q), none)

/-! ## A concrete environment -/

/-- Leap years of the Gregorian calendar. -/
def isLeap (year : Nat) : Bool :=
  year % 4 == 0 && (year % 100 != 0 || year % 400 == 0)

/-- Number of days of a month. -/
def daysIn (month year : Nat) : Nat :=
  if month = 2 then (if isLeap year then 29 else 28)
  else if month = 4 ∨ month = 6 ∨ month = 9 ∨ month = 11 then 30
  else 31

/-- Value of a decimal digit. -/
def digitVal (c : Char) : Nat := c.toNat - 48

/-- Two leading decimal digits and the rest (`getnum` with `fixed = true`). -/
def getnum2 : List Char → Option (Nat × List Char)
  | a :: b :: rest =>
    if a.isDigit && b.isDigit then some (digitVal a * 10 + digitVal b, rest) else none
  | _ => none

/-- Four leading decimal digits and the rest (the layout element `2006`). -/
def getnum4 : List Char → Option (Nat × List Char)
  | a :: b :: c :: d :: rest =>
    if a.isDigit && b.isDigit && c.isDigit && d.isDigit then
      some (digitVal a * 1000 + digitVal b * 100 + digitVal c * 10 + digitVal d, rest)
    else none
  | _ => none

/-- A literal `-` of the layout is skipped. -/
def skipDash : List Char → Option (List Char)
  | '-' :: rest => some rest
  | _ => none

/-- The error `time.Parse` reports when an element of the value does not match the layout. -/
def cannotParse (value : String) (valueElem : List Char) (layoutElem : String) : GoError :=
  .errorf ("parsing time \"" ++ value ++ "\" as \"2006-01-02\": cannot parse \""
    ++ String.mk valueElem ++ "\" as \"" ++ layoutElem ++ "\"")

/-- The error `time.Parse` reports for a value whose elements match the layout but are out of
range or followed by more text. -/
def parseError (value : String) (message : String) : GoError :=
  .errorf ("parsing time \"" ++ value ++ "\"" ++ message)

/-- A reference reading of Go's `time.Parse` for values made of printable ASCII characters: at
the layout `2006-01-02` a value is accepted when it is four digits, a dash, two digits, a
dash and two digits, with the month in 1..12 and the day within the month; no other layout
is supported. It instantiates the field `timeParse` of an environment on concrete inputs. -/
def timeParse (layout value : String) : Time × Option GoError :=
  if layout ≠ "2006-01-02" then
    (Time.zero, some (.errorf "layout not supported"))
  else
    match getnum4 value.data with
    | none => (Time.zero, some (cannotParse value value.data "2006"))
    | some (year, rest) =>
    match skipDash rest with
    | none => (Time.zero, some (cannotParse value rest "-"))
    | some rest =>
    match getnum2 rest with
    | none => (Time.zero, some (cannotParse value rest "01"))
    | some (month, rest1) =>
    if month = 0 ∨ month > 12 then
      (Time.zero, some (parseError value ": month out of range"))
    else
    match skipDash rest1 with
    | none => (Time.zero, some (cannotParse value rest1 "-"))
    | some rest2 =>
    match getnum2 rest2 with
    | none => (Time.zero, some (cannotParse value rest2 "02"))
    | some (day, rest3) =>
    if rest3 ≠ [] then
      (Time.zero, some (parseError value (": extra text: \"" ++ String.mk rest3 ++ "\"")))
    else if day < 1 ∨ day > daysIn month year then
      (Time.zero, some (parseError value ": day out of range"))
    else
      (⟨year, month, day⟩, none)

/-- A stand-in for `processing.ComputingCardInfo`: the number of rows, or an error when a row
comes without its vacancy. -/
def sampleCardInfo (rows : List FactHiringProcess) : Nat × Option GoError :=
  if rows.all (fun r => r.DimVacancy.isSome) then (rows.length, none)
  else (0, some (.errorf "card info: vacancy not loaded"))

/-- A stand-in for `processing.GenerateVacancyStatusSummary`: the number of rows with a
vacancy, or an error when a row comes without its vacancy. -/
def sampleVacancyStatus (rows : List FactHiringProcess) : Nat × Option GoError :=
  if rows.all (fun r => r.DimVacancy.isSome) then (rows.length, none)
  else (0, some (.errorf "vacancy status: vacancy not loaded"))

/-- A stand-in for `processing.GenerateAverageHiringTime`: the number of candidate
associations, or an error when a row comes without its process. -/
def sampleAverageHiringTime (rows : List FactHiringProcess) : Nat × Option GoError :=
  if rows.all (fun r => r.DimProcess.isSome) then
    ((rows.map (fun r => r.HiringProcessCandidates.length)).sum, none)
  else (0, some (.errorf "average hiring time: process not loaded"))

/-- A concrete environment: the reference date parser, the query execution described by the
specification, and the stand-in aggregations. -/
def sampleEnv : Env Nat Nat Nat :=
  { timeParse := timeParse
    All := entAll
    ComputingCardInfo := sampleCardInfo
    GenerateVacancyStatusSummary := sampleVacancyStatus
    GenerateAverageHiringTime := sampleAverageHiringTime }

/-- The concrete environment during a database outage: every query fails. -/
def outageEnv : Env Nat Nat Nat :=
  { sampleEnv with All := fun _ _ => ([], some (.errorf "dial tcp: connection refused")) }

/-- The row of the end-to-end scenario of the specification: vacancy closing on 2024-03-15,
process titled "Backend Engineer". -/
def backendRow : FactHiringProcess :=
  { ID := 1
    DimVacancy := some { Title := "Backend vacancy", ClosingDate := ⟨2024, 3, 15⟩ }
    DimProcess := some { Title := "Backend Engineer" }
    HiringProcessCandidates := [7, 8] }

/-- A row whose vacancy and process are not set. -/
def orphanRow : FactHiringProcess :=
  { ID := 2, DimVacancy := none, DimProcess := none, HiringProcessCandidates := [] }

/-- A table with the two sample rows, and no call made yet. -/
def sampleWorld : World := ⟨[backendRow, orphanRow], []⟩

/-- The filter with four empty fields. -/
def emptyFilter : GetMetricsFilter := ⟨"", "", "", ""⟩

/-- The filter of the end-to-end scenario of the specification. -/
def scenarioFilter : GetMetricsFilter := ⟨"Backend", "", "2024-01-01", "2024-12-31"⟩

/-- The parseable dates of a filter: a date field is empty or `time.Parse` accepts it at the
layout `2006-01-02`. -/
def DatesParse (env : Env V C A) (filter : GetMetricsFilter) : Prop :=
  (filter.StartDate = "" ∨ (env.timeParse "2006-01-02" filter.StartDate).2 = none) ∧
  (filter.EndDate = "" ∨ (env.timeParse "2006-01-02" filter.EndDate).2 = none)

instance (env : Env V C A) (filter : GetMetricsFilter) : Decidable (DatesParse env filter) :=
  inferInstanceAs (Decidable (
    (filter.StartDate = "" ∨ (env.timeParse "2006-01-02" filter.StartDate).2 = none) ∧
    (filter.EndDate = "" ∨ (env.timeParse "2006-01-02" filter.EndDate).2 = none)))

/-- The predicates a filter with parseable dates attaches, in the order of attachment. -/
def filterPredicates (env : Env V C A) (filter : GetMetricsFilter) :
    List FactHiringProcessPredicate :=
  (if filter.HiringProcessName ≠ "" then
      [.HasDimProcessWith (.TitleContains filter.HiringProcessName)] else []) ++
  (if filter.VacancyName ≠ "" then
      [.HasDimVacancyWith (.TitleContains filter.VacancyName)] else []) ++
  (if filter.StartDate ≠ "" then
      [.HasDimVacancyWith (.ClosingDateGTE
        ⟨(env.timeParse "2006-01-02" filter.StartDate).1, .Finite, true⟩)] else []) ++
  (if filter.EndDate ≠ "" then
      [.HasDimVacancyWith (.ClosingDateLTE
        ⟨(env.timeParse "2006-01-02" filter.EndDate).1, .Finite, true⟩)] else [])

/-- The conditions of a filter on a row, in the words of the specification: for each
non-empty field, the row has the associated entity and its title contains the name, or its
closing date is on or after the parsed start date, or on or before the parsed end date. -/
def FilterHolds (env : Env V C A) (filter : GetMetricsFilter) (r : FactHiringProcess) : Prop :=
  (filter.HiringProcessName ≠ "" →
    ∃ p, r.DimProcess = some p ∧ Contains p.Title filter.HiringProcessName) ∧
  (filter.VacancyName ≠ "" →
    ∃ v, r.DimVacancy = some v ∧ Contains v.Title filter.VacancyName) ∧
  (filter.StartDate ≠ "" →
    ∃ v, r.DimVacancy = some v ∧
      (ParseStringToPgtypeDate env.timeParse "2006-01-02" filter.StartDate).1.Time
        ≤ v.ClosingDate) ∧
  (filter.EndDate ≠ "" →
    ∃ v, r.DimVacancy = some v ∧
      v.ClosingDate
        ≤ (ParseStringToPgtypeDate env.timeParse "2006-01-02" filter.EndDate).1.Time)

/-- Number of non-empty fields of a filter. -/
def nonEmptyFields (filter : GetMetricsFilter) : Nat :=
  (if filter.HiringProcessName ≠ "" then 1 else 0) + (if filter.VacancyName ≠ "" then 1 else 0)
    + (if filter.StartDate ≠ "" then 1 else 0) + (if filter.EndDate ≠ "" then 1 else 0)

/-! ## Texts of errors -/

theorem Contains.refl (s : String) : Contains s s :=
  List.infix_refl _

theorem Contains.trans {a b c : String} (hab : Contains a b) (hbc : Contains b c) :
    Contains a c :=
  List.IsInfix.trans hbc hab

theorem contains_append_right (pre s : String) : Contains (pre ++ s) s := by
  unfold Contains
  rw [String.data_append]
  exact (List.suffix_append _ _).isInfix

theorem contains_append_left (s post : String) : Contains (s ++ post) s := by
  unfold Contains
  rw [String.data_append]
  exact (List.prefix_append _ _).isInfix

theorem contains_ErrorfW (pre : String) (e : GoError) : Contains (ErrorfW pre e).Error e.Error :=
  contains_append_right pre e.Error

theorem contains_sprintElems : ∀ (errs : List GoError) (e : GoError), e ∈ errs →
    Contains (sprintElems errs) e.Error
  | [], e, h => by simp at h
  | [x], e, h => by
    have hx : e = x := by simpa using h
    subst hx
    exact Contains.refl _
  | x :: y :: ys, e, h => by
    have hstep : sprintElems (x :: y :: ys) = x.Error ++ " " ++ sprintElems (y :: ys) := rfl
    rw [hstep]
    rcases List.mem_cons.mp h with hx | hrest
    · subst hx
      rw [String.append_assoc]
      exact contains_append_left _ _
    · exact (contains_append_right _ _).trans (contains_sprintElems (y :: ys) e hrest)

theorem contains_ErrorfVSlice (pre : String) (errs : List GoError) (e : GoError)
    (h : e ∈ errs) : Contains (ErrorfVSlice pre errs).Error e.Error := by
  have h1 : Contains (ErrorfVSlice pre errs).Error (sprintElems errs) := by
    show Contains (pre ++ "[" ++ sprintElems errs ++ "]") (sprintElems errs)
    exact (contains_append_left _ _).trans (contains_append_right _ _)
  exact h1.trans (contains_sprintElems errs e h)

theorem ErrorfVSlice_starts (pre : String) (errs : List GoError) :
    pre.data <+: (ErrorfVSlice pre errs).Error.data := by
  show pre.data <+: (pre ++ "[" ++ sprintElems errs ++ "]").data
  simp only [String.data_append, List.append_assoc]
  exact List.prefix_append _ _

/-! ## The aggregation stage -/

theorem aggregate_world (env : Env V C A) (rows : List FactHiringProcess) (w : World) :
    (aggregate env rows w).2 =
      { table := w.table
        calls := w.calls ++ [.ComputingCardInfo rows, .GenerateVacancyStatusSummary rows,
          .GenerateAverageHiringTime rows] } := by
  unfold aggregate
  rcases env.ComputingCardInfo rows with ⟨c, _ | e1⟩ <;>
  rcases env.GenerateVacancyStatusSummary rows with ⟨v, _ | e2⟩ <;>
  rcases env.GenerateAverageHiringTime rows with ⟨a, _ | e3⟩ <;>
  simp [World.record]

theorem aggregate_ok (env : Env V C A) (rows : List FactHiringProcess) (w : World)
    (hc : (env.ComputingCardInfo rows).2 = none)
    (hv : (env.GenerateVacancyStatusSummary rows).2 = none)
    (ha : (env.GenerateAverageHiringTime rows).2 = none) :
    (aggregate env rows w).1 =
      (some { VacancySummary := (env.GenerateVacancyStatusSummary rows).1
              CardInfos := (env.ComputingCardInfo rows).1
              AverageHiringTime := (env.GenerateAverageHiringTime rows).1 }, none) := by
  unfold aggregate
  rcases hce : env.ComputingCardInfo rows with ⟨c, _ | e1⟩ <;>
  rcases hve : env.GenerateVacancyStatusSummary rows with ⟨v, _ | e2⟩ <;>
  rcases hae : env.GenerateAverageHiringTime rows with ⟨a, _ | e3⟩ <;>
  simp_all

theorem aggregate_fail (env : Env V C A) (rows : List FactHiringProcess) (w : World)
    (h : (env.ComputingCardInfo rows).2 ≠ none ∨
      (env.GenerateVacancyStatusSummary rows).2 ≠ none ∨
      (env.GenerateAverageHiringTime rows).2 ≠ none) :
    ∃ errs : List GoError,
      (aggregate env rows w).1 = (none, some (ErrorfVSlice "failed to get metrics: " errs)) ∧
      (∀ e, (env.ComputingCardInfo rows).2 = some e →
        ErrorfW "could not calculate `CardInfo` data: " e ∈ errs) ∧
      (∀ e, (env.GenerateVacancyStatusSummary rows).2 = some e →
        ErrorfW "could not generate `VacancyStatus` summary: " e ∈ errs) ∧
      (∀ e, (env.GenerateAverageHiringTime rows).2 = some e →
        ErrorfW "could not generate `AvgHiringTime` data: " e ∈ errs) := by
  unfold aggregate
  rcases hce : env.ComputingCardInfo rows with ⟨c, _ | e1⟩ <;>
  rcases hve : env.GenerateVacancyStatusSummary rows with ⟨v, _ | e2⟩ <;>
  rcases hae : env.GenerateAverageHiringTime rows with ⟨a, _ | e3⟩ <;>
  simp_all <;>
  exact ⟨_, rfl, by simp⟩

theorem aggregate_no_error (env : Env V C A) (rows : List FactHiringProcess) (w : World)
    (h : (aggregate env rows w).1.1 ≠ none ∨ (aggregate env rows w).1.2 = none) :
    (env.ComputingCardInfo rows).2 = none ∧
    (env.GenerateVacancyStatusSummary rows).2 = none ∧
    (env.GenerateAverageHiringTime rows).2 = none := by
  by_contra hne
  have hfail : (env.ComputingCardInfo rows).2 ≠ none ∨
      (env.GenerateVacancyStatusSummary rows).2 ≠ none ∨
      (env.GenerateAverageHiringTime rows).2 ≠ none := by
    by_contra hcon
    push_neg at hcon
    exact hne hcon
  obtain ⟨errs, heq, -⟩ := aggregate_fail env rows w hfail
  rw [heq] at h
  simp at h

/-! ## Date parsing and the construction of the query -/

theorem parse_ok (tp : String → String → Time × Option GoError) (layout value : String)
    (h : (tp layout value).2 = none) :
    ParseStringToPgtypeDate tp layout value =
      ({ Time := (tp layout value).1, InfinityModifier := .Finite, Valid := true }, none) := by
  unfold ParseStringToPgtypeDate
  rcases hp : tp layout value with ⟨t, _ | e⟩ <;> simp_all

theorem parse_err (tp : String → String → Time × Option GoError) (layout value : String)
    (e : GoError) (h : (tp layout value).2 = some e) :
    ParseStringToPgtypeDate tp layout value =
      (Date.zero, some (ErrorfV "failed to parse date: " e)) := by
  unfold ParseStringToPgtypeDate
  rcases hp : tp layout value with ⟨t, _ | e0⟩ <;> simp_all

theorem buildQuery_start_err (env : Env V C A) (filter : GetMetricsFilter) (e : GoError)
    (hne : filter.StartDate ≠ "")
    (h : (env.timeParse "2006-01-02" filter.StartDate).2 = some e) :
    (buildQuery env filter).2 =
      some (ErrorfW "could not parse `StartDate`: " (ErrorfV "failed to parse date: " e)) := by
  unfold buildQuery
  simp [hne, parse_err env.timeParse _ _ e h]

theorem buildQuery_end_err (env : Env V C A) (filter : GetMetricsFilter) (e : GoError)
    (hs : filter.StartDate = "" ∨ (env.timeParse "2006-01-02" filter.StartDate).2 = none)
    (hne : filter.EndDate ≠ "")
    (h : (env.timeParse "2006-01-02" filter.EndDate).2 = some e) :
    (buildQuery env filter).2 =
      some (ErrorfW "could not parse `EndDate`: " (ErrorfV "failed to parse date: " e)) := by
  unfold buildQuery
  by_cases hs0 : filter.StartDate = ""
  · simp [hs0, hne, parse_err env.timeParse _ _ e h]
  · have hs1 := hs.resolve_left hs0
    simp [hs0, hne, parse_err env.timeParse _ _ e h, parse_ok env.timeParse _ _ hs1]

theorem buildQuery_ok (env : Env V C A) (filter : GetMetricsFilter)
    (h : DatesParse env filter) :
    buildQuery env filter =
      ({ withDimVacancy := true, withDimProcess := true, withHiringProcessCandidates := true
         predicates := filterPredicates env filter }, none) := by
  obtain ⟨hs, he⟩ := h
  unfold buildQuery filterPredicates
  by_cases hs0 : filter.StartDate = "" <;> by_cases he0 : filter.EndDate = "" <;>
  by_cases hp : filter.HiringProcessName = "" <;> by_cases hv : filter.VacancyName = "" <;>
  simp [hs0, he0, hp, hv, FactHiringProcessQuery.Where, FactHiringProcessQuery.Query,
    FactHiringProcessQuery.WithDimVacancy, FactHiringProcessQuery.WithDimProcess,
    FactHiringProcessQuery.WithHiringProcessCandidates,
    parse_ok env.timeParse _ _ (hs.resolve_left _), parse_ok env.timeParse _ _ (he.resolve_left _)]

theorem buildQuery_err_of_not_datesParse (env : Env V C A) (filter : GetMetricsFilter)
    (h : ¬ DatesParse env filter) : (buildQuery env filter).2 ≠ none := by
  unfold DatesParse at h
  by_cases hs : filter.StartDate = "" ∨ (env.timeParse "2006-01-02" filter.StartDate).2 = none
  · have he : ¬ (filter.EndDate = "" ∨ (env.timeParse "2006-01-02" filter.EndDate).2 = none) :=
      fun he => h ⟨hs, he⟩
    push_neg at he
    obtain ⟨e, hee⟩ := Option.ne_none_iff_exists'.mp he.2
    rw [buildQuery_end_err env filter e hs he.1 hee]
    simp
  · push_neg at hs
    obtain ⟨e, hee⟩ := Option.ne_none_iff_exists'.mp hs.2
    rw [buildQuery_start_err env filter e hs.1 hee]
    simp

theorem buildQuery_none_iff (env : Env V C A) (filter : GetMetricsFilter) :
    (buildQuery env filter).2 = none ↔ DatesParse env filter := by
  constructor
  · intro h
    by_contra hd
    exact buildQuery_err_of_not_datesParse env filter hd h
  · intro h
    rw [buildQuery_ok env filter h]

/-! ## The three ways `GetMetrics` ends -/

theorem GetMetrics_build_err (env : Env V C A) (filter : GetMetricsFilter) (w : World)
    (e : GoError) (h : (buildQuery env filter).2 = some e) :
    GetMetrics env filter w = ((none, some e), w) := by
  unfold GetMetrics
  rcases hb : buildQuery env filter with ⟨q, _ | e0⟩ <;> simp_all

theorem GetMetrics_query_err (env : Env V C A) (filter : GetMetricsFilter) (w : World)
    (e : GoError) (hb : (buildQuery env filter).2 = none)
    (h : (env.All (buildQuery env filter).1 w.table).2 = some e) :
    GetMetrics env filter w =
      ((none, some (ErrorfW "could not retrieve `FactHiringProcess` data: " e)),
        w.record (.All (buildQuery env filter).1)) := by
  unfold GetMetrics
  rcases hq : buildQuery env filter with ⟨q, _ | e0⟩
  · rw [hq] at h
    rcases ha : env.All q w.table with ⟨rows, _ | e1⟩ <;> simp_all
  · simp_all

theorem GetMetrics_query_ok (env : Env V C A) (filter : GetMetricsFilter) (w : World)
    (hb : (buildQuery env filter).2 = none)
    (h : (env.All (buildQuery env filter).1 w.table).2 = none) :
    GetMetrics env filter w =
      aggregate env (env.All (buildQuery env filter).1 w.table).1
        (w.record (.All (buildQuery env filter).1)) := by
  unfold GetMetrics
  rcases hq : buildQuery env filter with ⟨q, _ | e0⟩
  · rw [hq] at h
    rcases ha : env.All q w.table with ⟨rows, _ | e1⟩ <;> simp_all
  · simp_all

theorem aggregate_fst_congr (env : Env V C A) (rows : List FactHiringProcess) (w w' : World) :
    (aggregate env rows w).1 = (aggregate env rows w').1 := by
  unfold aggregate
  rcases env.ComputingCardInfo rows with ⟨c, _ | e1⟩ <;>
  rcases env.GenerateVacancyStatusSummary rows with ⟨v, _ | e2⟩ <;>
  rcases env.GenerateAverageHiringTime rows with ⟨a, _ | e3⟩ <;>
  simp

theorem GetMetrics_table (env : Env V C A) (filter : GetMetricsFilter) (w : World) :
    (GetMetrics env filter w).2.table = w.table := by
  rcases hb : (buildQuery env filter).2 with _ | e
  · rcases hq : (env.All (buildQuery env filter).1 w.table).2 with _ | qe
    · rw [GetMetrics_query_ok env filter w hb hq, aggregate_world]
      rfl
    · rw [GetMetrics_query_err env filter w qe hb hq]
      rfl
  · rw [GetMetrics_build_err env filter w e hb]

theorem GetMetrics_fst_congr (env : Env V C A) (filter : GetMetricsFilter) (w w' : World)
    (h : w.table = w'.table) : (GetMetrics env filter w).1 = (GetMetrics env filter w').1 := by
  rcases hb : (buildQuery env filter).2 with _ | e
  · rcases hq : (env.All (buildQuery env filter).1 w.table).2 with _ | qe
    · rw [GetMetrics_query_ok env filter w hb hq,
        GetMetrics_query_ok env filter w' hb (h ▸ hq), ← h]
      exact aggregate_fst_congr env _ _ _
    · rw [GetMetrics_query_err env filter w qe hb hq,
        GetMetrics_query_err env filter w' qe hb (h ▸ hq)]
  · rw [GetMetrics_build_err env filter w e hb, GetMetrics_build_err env filter w' e hb]

/-! ## The rows a query returns -/

theorem loadEdges_all (q : FactHiringProcessQuery) (r : FactHiringProcess)
    (h1 : q.withDimVacancy = true) (h2 : q.withDimProcess = true)
    (h3 : q.withHiringProcessCandidates = true) : loadEdges q r = r := by
  unfold loadEdges
  simp [h1, h2, h3]

theorem entAll_all_loaded (q : FactHiringProcessQuery) (table : List FactHiringProcess)
    (h1 : q.withDimVacancy = true) (h2 : q.withDimProcess = true)
    (h3 : q.withHiringProcessCandidates = true) :
    entAll q table = (table.filter (fun r => q.predicates.all (fun p => p.eval r)), none) := by
  unfold entAll
  have hid : loadEdges q = id := funext fun r => loadEdges_all q r h1 h2 h3
  rw [hid, List.map_id]

theorem mem_entAll (q : FactHiringProcessQuery) (table : List FactHiringProcess)
    (r : FactHiringProcess)
    (h1 : q.withDimVacancy = true) (h2 : q.withDimProcess = true)
    (h3 : q.withHiringProcessCandidates = true) :
    r ∈ (entAll q table).1 ↔ r ∈ table ∧ ∀ p ∈ q.predicates, p.eval r = true := by
  rw [entAll_all_loaded q table h1 h2 h3]
  simp [List.mem_filter, List.all_eq_true]

theorem filterPredicates_eval (env : Env V C A) (filter : GetMetricsFilter)
    (hd : DatesParse env filter) (r : FactHiringProcess) :
    (∀ p ∈ filterPredicates env filter, p.eval r = true) ↔ FilterHolds env filter r := by
  obtain ⟨hs, he⟩ := hd
  unfold filterPredicates FilterHolds
  by_cases hs0 : filter.StartDate = "" <;> by_cases he0 : filter.EndDate = "" <;>
  by_cases hp : filter.HiringProcessName = "" <;> by_cases hv : filter.VacancyName = "" <;>
  rcases hrv : r.DimVacancy with _ | vac <;> rcases hrp : r.DimProcess with _ | pro <;>
  simp [hs0, he0, hp, hv, hrv, hrp, FactHiringProcessPredicate.eval,
    DimVacancyPredicate.eval, DimProcessPredicate.eval,
    parse_ok env.timeParse _ _ (hs.resolve_left _), parse_ok env.timeParse _ _ (he.resolve_left _)]

theorem mem_rows_iff (env : Env V C A) (filter : GetMetricsFilter)
    (hd : DatesParse env filter) (table : List FactHiringProcess) (r : FactHiringProcess) :
    r ∈ (entAll (buildQuery env filter).1 table).1 ↔ r ∈ table ∧ FilterHolds env filter r := by
  rw [buildQuery_ok env filter hd, mem_entAll _ _ _ rfl rfl rfl,
    ← filterPredicates_eval env filter hd r]

theorem GetMetrics_calls_of_ent (env : Env V C A) (filter : GetMetricsFilter) (w : World)
    (hAll : env.All = entAll) (hd : DatesParse env filter) :
    (GetMetrics env filter w).2.calls =
      w.calls ++ [.All (buildQuery env filter).1,
        .ComputingCardInfo (entAll (buildQuery env filter).1 w.table).1,
        .GenerateVacancyStatusSummary (entAll (buildQuery env filter).1 w.table).1,
        .GenerateAverageHiringTime (entAll (buildQuery env filter).1 w.table).1] := by
  have hb := (buildQuery_none_iff env filter).mpr hd
  have hq : (env.All (buildQuery env filter).1 w.table).2 = none := by
    rw [hAll]
    rfl
  rw [GetMetrics_query_ok env filter w hb hq, aggregate_world, hAll]
  simp [World.record]

/-! ## The claims about `GetMetrics` and `ParseStringToPgtypeDate` -/

/-- C1: when the start date or the end date of the filter is non-empty and `time.Parse`
rejects it at the layout `2006-01-02`, `GetMetrics` returns no data and a non-nil error, and
it makes no call at all: the log of calls is unchanged, so the query is not executed and no
aggregation runs. -/
theorem GetMetrics_malformed_date_aborts (env : Env V C A) (filter : GetMetricsFilter)
    (w : World)
    (h : (filter.StartDate ≠ "" ∧ (env.timeParse "2006-01-02" filter.StartDate).2 ≠ none) ∨
      (filter.EndDate ≠ "" ∧ (env.timeParse "2006-01-02" filter.EndDate).2 ≠ none)) :
    (GetMetrics env filter w).1.1 = none ∧ (GetMetrics env filter w).1.2 ≠ none ∧
      (GetMetrics env filter w).2.calls = w.calls := by
  have hnd : ¬ DatesParse env filter := by
    rintro ⟨hs, he⟩
    rcases h with ⟨h1, h2⟩ | ⟨h1, h2⟩
    · exact h2 (hs.resolve_left h1)
    · exact h2 (he.resolve_left h1)
  obtain ⟨e, hbe⟩ := Option.ne_none_iff_exists'.mp (buildQuery_err_of_not_datesParse env filter hnd)
  rw [GetMetrics_build_err env filter w e hbe]
  simp

theorem GetMetrics_malformed_date_aborts_witness :
    ((GetMetricsFilter.mk "" "" "2024-13-40" "").StartDate ≠ "" ∧
      (sampleEnv.timeParse "2006-01-02" "2024-13-40").2 ≠ none) ∧
    (GetMetrics sampleEnv ⟨"", "", "2024-13-40", ""⟩ ⟨[backendRow], []⟩).1.1 = none ∧
    (GetMetrics sampleEnv ⟨"", "", "2024-13-40", ""⟩ ⟨[backendRow], []⟩).1.2 ≠ none ∧
    (GetMetrics sampleEnv ⟨"", "", "2024-13-40", ""⟩ ⟨[backendRow], []⟩).2.calls = [] :=
  ⟨by decide,
    GetMetrics_malformed_date_aborts sampleEnv ⟨"", "", "2024-13-40", ""⟩ ⟨[backendRow], []⟩
      (Or.inl (by decide))⟩

/-- C2: when the dates parse and the query returns a row set, and at least one of the three
aggregations fails on it, `GetMetrics` has called the query and then all three aggregations
on that row set, returns no data, and returns one error whose text contains the text of the
error of every aggregation that failed. -/
theorem GetMetrics_aggregation_errors_combined (env : Env V C A) (filter : GetMetricsFilter)
    (w : World) (rows : List FactHiringProcess)
    (hd : DatesParse env filter)
    (hq : env.All (buildQuery env filter).1 w.table = (rows, none))
    (hfail : (env.ComputingCardInfo rows).2 ≠ none ∨
      (env.GenerateVacancyStatusSummary rows).2 ≠ none ∨
      (env.GenerateAverageHiringTime rows).2 ≠ none) :
    (GetMetrics env filter w).2.calls =
      w.calls ++ [.All (buildQuery env filter).1, .ComputingCardInfo rows,
        .GenerateVacancyStatusSummary rows, .GenerateAverageHiringTime rows] ∧
    (GetMetrics env filter w).1.1 = none ∧
    ∃ e, (GetMetrics env filter w).1.2 = some e ∧
      (∀ c, (env.ComputingCardInfo rows).2 = some c → Contains e.Error c.Error) ∧
      (∀ v, (env.GenerateVacancyStatusSummary rows).2 = some v → Contains e.Error v.Error) ∧
      (∀ a, (env.GenerateAverageHiringTime rows).2 = some a → Contains e.Error a.Error) := by
  have hb := (buildQuery_none_iff env filter).mpr hd
  have hq2 : (env.All (buildQuery env filter).1 w.table).2 = none := by rw [hq]
  rw [GetMetrics_query_ok env filter w hb hq2, hq]
  obtain ⟨errs, heq, h1, h2, h3⟩ :=
    aggregate_fail env rows (w.record (.All (buildQuery env filter).1)) hfail
  refine ⟨?_, ?_, ErrorfVSlice "failed to get metrics: " errs, ?_, ?_, ?_, ?_⟩
  · rw [aggregate_world]
    simp [World.record]
  · rw [heq]
  · rw [heq]
  · intro c hc
    exact (contains_ErrorfVSlice _ errs _ (h1 c hc)).trans (contains_ErrorfW _ c)
  · intro v hv
    exact (contains_ErrorfVSlice _ errs _ (h2 v hv)).trans (contains_ErrorfW _ v)
  · intro a ha
    exact (contains_ErrorfVSlice _ errs _ (h3 a ha)).trans (contains_ErrorfW _ a)


theorem GetMetrics_aggregation_errors_combined_witness :
    (GetMetrics sampleEnv emptyFilter sampleWorld).2.calls =
      [.All ⟨true, true, true, []⟩, .ComputingCardInfo [backendRow, orphanRow],
        .GenerateVacancyStatusSummary [backendRow, orphanRow],
        .GenerateAverageHiringTime [backendRow, orphanRow]] ∧
    (GetMetrics sampleEnv emptyFilter sampleWorld).1.1 = none ∧
    ∃ e, (GetMetrics sampleEnv emptyFilter sampleWorld).1.2 = some e ∧
      (∀ c, (sampleEnv.ComputingCardInfo [backendRow, orphanRow]).2 = some c →
        Contains e.Error c.Error) ∧
      (∀ v, (sampleEnv.GenerateVacancyStatusSummary [backendRow, orphanRow]).2 = some v →
        Contains e.Error v.Error) ∧
      (∀ a, (sampleEnv.GenerateAverageHiringTime [backendRow, orphanRow]).2 = some a →
        Contains e.Error a.Error) :=
  GetMetrics_aggregation_errors_combined sampleEnv emptyFilter sampleWorld
    [backendRow, orphanRow] ⟨Or.inl rfl, Or.inl rfl⟩ (by decide) (Or.inl (by decide))

/-- C3: when the dates parse and the execution of the query fails, `GetMetrics` returns no
data and the error `could not retrieve FactHiringProcess data: ...` that wraps the error of
the query, and the only call it has made is the query: no aggregation is invoked. -/
theorem GetMetrics_query_failure_aborts (env : Env V C A) (filter : GetMetricsFilter)
    (w : World) (rows : List FactHiringProcess) (qerr : GoError)
    (hd : DatesParse env filter)
    (hq : env.All (buildQuery env filter).1 w.table = (rows, some qerr)) :
    (GetMetrics env filter w).1 =
      (none, some (.wrapf ("could not retrieve `FactHiringProcess` data: " ++ qerr.Error) qerr)) ∧
    (GetMetrics env filter w).2.calls = w.calls ++ [.All (buildQuery env filter).1] := by
  have hb := (buildQuery_none_iff env filter).mpr hd
  have hq2 : (env.All (buildQuery env filter).1 w.table).2 = some qerr := by rw [hq]
  rw [GetMetrics_query_err env filter w qerr hb hq2]
  exact ⟨rfl, rfl⟩

theorem GetMetrics_query_failure_aborts_witness :
    (GetMetrics outageEnv scenarioFilter sampleWorld).1 =
      (none, some (.wrapf
        ("could not retrieve `FactHiringProcess` data: " ++ "dial tcp: connection refused")
        (.errorf "dial tcp: connection refused"))) ∧
    (GetMetrics outageEnv scenarioFilter sampleWorld).2.calls =
      [] ++ [.All (buildQuery outageEnv scenarioFilter).1] :=
  GetMetrics_query_failure_aborts outageEnv scenarioFilter sampleWorld []
    (.errorf "dial tcp: connection refused") (by decide) rfl

/-- C4: when the dates parse, the query succeeds and the three aggregations succeed on the
returned row set, `GetMetrics` returns a nil error and the data whose three fields are the
results of the three aggregations on that row set; and whenever `GetMetrics` returns data,
the dates parsed, the query succeeded, the three aggregations succeeded, the data is made of
their results and the error is nil. -/
theorem GetMetrics_data_iff_all_stages_succeed (env : Env V C A) (filter : GetMetricsFilter)
    (w : World) :
    (∀ rows, DatesParse env filter →
      env.All (buildQuery env filter).1 w.table = (rows, none) →
      (env.ComputingCardInfo rows).2 = none →
      (env.GenerateVacancyStatusSummary rows).2 = none →
      (env.GenerateAverageHiringTime rows).2 = none →
      (GetMetrics env filter w).1 =
        (some { VacancySummary := (env.GenerateVacancyStatusSummary rows).1
                CardInfos := (env.ComputingCardInfo rows).1
                AverageHiringTime := (env.GenerateAverageHiringTime rows).1 }, none)) ∧
    (∀ data, (GetMetrics env filter w).1.1 = some data →
      DatesParse env filter ∧
      ∃ rows, env.All (buildQuery env filter).1 w.table = (rows, none) ∧
        (env.ComputingCardInfo rows).2 = none ∧
        (env.GenerateVacancyStatusSummary rows).2 = none ∧
        (env.GenerateAverageHiringTime rows).2 = none ∧
        data = { VacancySummary := (env.GenerateVacancyStatusSummary rows).1
                 CardInfos := (env.ComputingCardInfo rows).1
                 AverageHiringTime := (env.GenerateAverageHiringTime rows).1 } ∧
        (GetMetrics env filter w).1.2 = none) := by
  constructor
  · intro rows hd hq hc hv ha
    have hb := (buildQuery_none_iff env filter).mpr hd
    have hq2 : (env.All (buildQuery env filter).1 w.table).2 = none := by rw [hq]
    rw [GetMetrics_query_ok env filter w hb hq2, hq]
    exact aggregate_ok env rows _ hc hv ha
  · intro data hdata
    rcases hb : (buildQuery env filter).2 with _ | e
    · rcases hq : (env.All (buildQuery env filter).1 w.table).2 with _ | qe
      · rw [GetMetrics_query_ok env filter w hb hq] at hdata ⊢
        have hagg := aggregate_no_error env _ _ (Or.inl (by rw [hdata]; simp))
        obtain ⟨hc, hv, ha⟩ := hagg
        have hok := aggregate_ok env _ (w.record (.All (buildQuery env filter).1)) hc hv ha
        rw [hok] at hdata ⊢
        refine ⟨(buildQuery_none_iff env filter).mp hb, _,
          Prod.ext rfl hq, hc, hv, ha, ?_, rfl⟩
        simpa using hdata.symm
      · rw [GetMetrics_query_err env filter w qe hb hq] at hdata
        simp at hdata
    · rw [GetMetrics_build_err env filter w e hb] at hdata
      simp at hdata

theorem GetMetrics_data_iff_all_stages_succeed_witness :
    DatesParse sampleEnv scenarioFilter ∧
    (GetMetrics sampleEnv scenarioFilter sampleWorld).1 = (some ⟨1, 1, 2⟩, none) :=
  ⟨by decide,
    (GetMetrics_data_iff_all_stages_succeed sampleEnv scenarioFilter sampleWorld).1
      [backendRow] (by decide) (by decide) (by decide) (by decide) (by decide)⟩

/-- C8: a second call of `GetMetrics` with the same filter, made in the state the first call
left behind, returns the same data and the same error as the first; the first call leaves the
contents of the table as they were. -/
theorem GetMetrics_repeat_same_result (env : Env V C A) (filter : GetMetricsFilter)
    (w : World) :
    (GetMetrics env filter (GetMetrics env filter w).2).1 = (GetMetrics env filter w).1 ∧
    (GetMetrics env filter w).2.table = w.table :=
  ⟨GetMetrics_fst_congr env filter _ _ (GetMetrics_table env filter w),
    GetMetrics_table env filter w⟩

/-- C10: `ParseStringToPgtypeDate` returns a nil error exactly when `time.Parse` does; when
`time.Parse` succeeds with a time, the result is the date with that time and `Valid = true`
and a nil error; when it fails, the result is the zero date, whose `Valid` is false, and the
error `failed to parse date: ...`; a date with `Valid = true` never comes with an error. -/
theorem ParseStringToPgtypeDate_spec (tp : String → String → Time × Option GoError)
    (layout dateString : String) :
    ((ParseStringToPgtypeDate tp layout dateString).2 = none ↔
      (tp layout dateString).2 = none) ∧
    (∀ t, tp layout dateString = (t, none) →
      ParseStringToPgtypeDate tp layout dateString =
        ({ Time := t, InfinityModifier := .Finite, Valid := true }, none)) ∧
    (∀ t e, tp layout dateString = (t, some e) →
      ParseStringToPgtypeDate tp layout dateString =
        (Date.zero, some (.errorf ("failed to parse date: " ++ e.Error))) ∧
      Date.zero.Valid = false) ∧
    ¬ ((ParseStringToPgtypeDate tp layout dateString).1.Valid = true ∧
      (ParseStringToPgtypeDate tp layout dateString).2 ≠ none) := by
  unfold ParseStringToPgtypeDate
  rcases hp : tp layout dateString with ⟨t, _ | e⟩ <;> simp [ErrorfV, Date.zero]


theorem ParseStringToPgtypeDate_spec_witness :
    ParseStringToPgtypeDate timeParse "2006-01-02" "2024-03-15" =
      ({ Time := ⟨2024, 3, 15⟩, InfinityModifier := .Finite, Valid := true }, none) ∧
    ParseStringToPgtypeDate timeParse "2006-01-02" "2024-13-40" =
      (Date.zero, some (.errorf ("failed to parse date: " ++
        GoError.Error (.errorf "parsing time \"2024-13-40\": month out of range")))) :=
  ⟨(ParseStringToPgtypeDate_spec timeParse "2006-01-02" "2024-03-15").2.1 _ (by decide),
    ((ParseStringToPgtypeDate_spec timeParse "2006-01-02" "2024-13-40").2.2.1 Time.zero _
      (by decide)).1⟩

/-- C9: every error of `GetMetrics` names its stage and carries the text of the underlying
error. A start date that does not parse gives `could not parse StartDate: ` followed by the
text of the parse error; an end date that does not parse gives `could not parse EndDate: `
followed by it; a failing query gives `could not retrieve FactHiringProcess data: ` followed
by the text of the query error, which it wraps; failing aggregations give one error that
starts with `failed to get metrics: ` and contains, for each aggregation that failed, its own
prefix followed by the text of its error. A nil error is returned only when the dates parsed,
the query succeeded and the three aggregations succeeded. -/
theorem GetMetrics_errors_identify_stage (env : Env V C A) (filter : GetMetricsFilter)
    (w : World) :
    (∀ pe, filter.StartDate ≠ "" →
      (env.timeParse "2006-01-02" filter.StartDate).2 = some pe →
      (GetMetrics env filter w).1.2 =
        some (.wrapf ("could not parse `StartDate`: " ++ ("failed to parse date: " ++ pe.Error))
          (.errorf ("failed to parse date: " ++ pe.Error)))) ∧
    (∀ pe, (filter.StartDate = "" ∨ (env.timeParse "2006-01-02" filter.StartDate).2 = none) →
      filter.EndDate ≠ "" →
      (env.timeParse "2006-01-02" filter.EndDate).2 = some pe →
      (GetMetrics env filter w).1.2 =
        some (.wrapf ("could not parse `EndDate`: " ++ ("failed to parse date: " ++ pe.Error))
          (.errorf ("failed to parse date: " ++ pe.Error)))) ∧
    (∀ qe, DatesParse env filter →
      (env.All (buildQuery env filter).1 w.table).2 = some qe →
      (GetMetrics env filter w).1.2 =
        some (.wrapf ("could not retrieve `FactHiringProcess` data: " ++ qe.Error) qe)) ∧
    (∀ rows, DatesParse env filter →
      env.All (buildQuery env filter).1 w.table = (rows, none) →
      ((env.ComputingCardInfo rows).2 ≠ none ∨
        (env.GenerateVacancyStatusSummary rows).2 ≠ none ∨
        (env.GenerateAverageHiringTime rows).2 ≠ none) →
      ∃ e, (GetMetrics env filter w).1.2 = some e ∧
        "failed to get metrics: ".data <+: e.Error.data ∧
        (∀ c, (env.ComputingCardInfo rows).2 = some c →
          Contains e.Error ("could not calculate `CardInfo` data: " ++ c.Error)) ∧
        (∀ v, (env.GenerateVacancyStatusSummary rows).2 = some v →
          Contains e.Error ("could not generate `VacancyStatus` summary: " ++ v.Error)) ∧
        (∀ a, (env.GenerateAverageHiringTime rows).2 = some a →
          Contains e.Error ("could not generate `AvgHiringTime` data: " ++ a.Error))) ∧
    ((GetMetrics env filter w).1.2 = none →
      DatesParse env filter ∧
      (env.All (buildQuery env filter).1 w.table).2 = none ∧
      (env.ComputingCardInfo (env.All (buildQuery env filter).1 w.table).1).2 = none ∧
      (env.GenerateVacancyStatusSummary (env.All (buildQuery env filter).1 w.table).1).2
        = none ∧
      (env.GenerateAverageHiringTime (env.All (buildQuery env filter).1 w.table).1).2
        = none) := by
  refine ⟨?_, ?_, ?_, ?_, ?_⟩
  · intro pe hne hpe
    rw [GetMetrics_build_err env filter w _ (buildQuery_start_err env filter pe hne hpe)]
    rfl
  · intro pe hs hne hpe
    rw [GetMetrics_build_err env filter w _ (buildQuery_end_err env filter pe hs hne hpe)]
    rfl
  · intro qe hd hq
    rw [GetMetrics_query_err env filter w qe ((buildQuery_none_iff env filter).mpr hd) hq]
    rfl
  · intro rows hd hq hfail
    have hb := (buildQuery_none_iff env filter).mpr hd
    have hq2 : (env.All (buildQuery env filter).1 w.table).2 = none := by rw [hq]
    rw [GetMetrics_query_ok env filter w hb hq2, hq]
    obtain ⟨errs, heq, h1, h2, h3⟩ :=
      aggregate_fail env rows (w.record (.All (buildQuery env filter).1)) hfail
    refine ⟨ErrorfVSlice "failed to get metrics: " errs, by rw [heq],
      ErrorfVSlice_starts _ errs, ?_, ?_, ?_⟩
    · intro c hc
      exact contains_ErrorfVSlice _ errs _ (h1 c hc)
    · intro v hv
      exact contains_ErrorfVSlice _ errs _ (h2 v hv)
    · intro a ha
      exact contains_ErrorfVSlice _ errs _ (h3 a ha)
  · intro hnil
    rcases hb : (buildQuery env filter).2 with _ | e
    · rcases hq : (env.All (buildQuery env filter).1 w.table).2 with _ | qe
      · rw [GetMetrics_query_ok env filter w hb hq] at hnil
        exact ⟨(buildQuery_none_iff env filter).mp hb, rfl,
          aggregate_no_error env _ _ (Or.inr hnil)⟩
      · rw [GetMetrics_query_err env filter w qe hb hq] at hnil
        simp at hnil
    · rw [GetMetrics_build_err env filter w e hb] at hnil
      simp at hnil

theorem GetMetrics_errors_identify_stage_witness :
    (GetMetrics sampleEnv ⟨"", "", "2024-01-01", "2024-13-40"⟩ sampleWorld).1.2 =
      some (.wrapf ("could not parse `EndDate`: " ++ ("failed to parse date: " ++
          GoError.Error (.errorf "parsing time \"2024-13-40\": month out of range")))
        (.errorf ("failed to parse date: " ++
          GoError.Error (.errorf "parsing time \"2024-13-40\": month out of range")))) :=
  (GetMetrics_errors_identify_stage sampleEnv ⟨"", "", "2024-01-01", "2024-13-40"⟩
    sampleWorld).2.1 _ (by decide) (by decide) (by decide)


/-- C5: with the query execution of the specification and a filter whose dates parse,
`GetMetrics` executes the query it built and hands its rows to the three aggregations; every
such row has a vacancy whose closing date is on or after the parsed start date when the start
date is non-empty, and on or before the parsed end date when the end date is non-empty; and
every row of the table that meets the conditions of the filter, a closing date equal to a
bound included, is among these rows. -/
theorem GetMetrics_rows_within_closing_date_range (env : Env V C A)
    (filter : GetMetricsFilter) (w : World)
    (hAll : env.All = entAll) (hd : DatesParse env filter) :
    (GetMetrics env filter w).2.calls =
      w.calls ++ [.All (buildQuery env filter).1,
        .ComputingCardInfo (entAll (buildQuery env filter).1 w.table).1,
        .GenerateVacancyStatusSummary (entAll (buildQuery env filter).1 w.table).1,
        .GenerateAverageHiringTime (entAll (buildQuery env filter).1 w.table).1] ∧
    (∀ r ∈ (entAll (buildQuery env filter).1 w.table).1,
      (filter.StartDate ≠ "" →
        ∃ v, r.DimVacancy = some v ∧
          (ParseStringToPgtypeDate env.timeParse "2006-01-02" filter.StartDate).1.Time
            ≤ v.ClosingDate) ∧
      (filter.EndDate ≠ "" →
        ∃ v, r.DimVacancy = some v ∧
          v.ClosingDate
            ≤ (ParseStringToPgtypeDate env.timeParse "2006-01-02" filter.EndDate).1.Time)) ∧
    (∀ r ∈ w.table, FilterHolds env filter r →
      r ∈ (entAll (buildQuery env filter).1 w.table).1) := by
  refine ⟨GetMetrics_calls_of_ent env filter w hAll hd, ?_, ?_⟩
  · intro r hr
    have hf := ((mem_rows_iff env filter hd w.table r).mp hr).2
    exact ⟨hf.2.2.1, hf.2.2.2⟩
  · intro r hr hf
    exact (mem_rows_iff env filter hd w.table r).mpr ⟨hr, hf⟩

theorem GetMetrics_rows_within_closing_date_range_witness :
    (sampleEnv.All = entAll ∧ DatesParse sampleEnv ⟨"", "", "2024-03-15", "2024-03-15"⟩) ∧
    (entAll (buildQuery sampleEnv ⟨"", "", "2024-03-15", "2024-03-15"⟩).1 sampleWorld.table).1
      = [backendRow] ∧
    (∀ r ∈ (entAll (buildQuery sampleEnv ⟨"", "", "2024-03-15", "2024-03-15"⟩).1
        sampleWorld.table).1,
      ((GetMetricsFilter.mk "" "" "2024-03-15" "2024-03-15").StartDate ≠ "" →
        ∃ v, r.DimVacancy = some v ∧
          (ParseStringToPgtypeDate sampleEnv.timeParse "2006-01-02"
            (GetMetricsFilter.mk "" "" "2024-03-15" "2024-03-15").StartDate).1.Time
            ≤ v.ClosingDate) ∧
      ((GetMetricsFilter.mk "" "" "2024-03-15" "2024-03-15").EndDate ≠ "" →
        ∃ v, r.DimVacancy = some v ∧
          v.ClosingDate
            ≤ (ParseStringToPgtypeDate sampleEnv.timeParse "2006-01-02"
              (GetMetricsFilter.mk "" "" "2024-03-15" "2024-03-15").EndDate).1.Time)) :=
  ⟨⟨rfl, by decide⟩, by decide,
    (GetMetrics_rows_within_closing_date_range sampleEnv ⟨"", "", "2024-03-15", "2024-03-15"⟩
      sampleWorld rfl (by decide)).2.1⟩

/-- C6: with the query execution of the specification and a filter whose dates parse, the
rows `GetMetrics` hands to the aggregations are the rows of the table that meet every
condition of the filter at once; in particular, when the process name is non-empty every such
row has a process whose title contains it, and when the vacancy name is non-empty every such
row has a vacancy whose title contains it. -/
theorem GetMetrics_name_filters_conjunctive (env : Env V C A)
    (filter : GetMetricsFilter) (w : World)
    (hAll : env.All = entAll) (hd : DatesParse env filter) :
    (GetMetrics env filter w).2.calls =
      w.calls ++ [.All (buildQuery env filter).1,
        .ComputingCardInfo (entAll (buildQuery env filter).1 w.table).1,
        .GenerateVacancyStatusSummary (entAll (buildQuery env filter).1 w.table).1,
        .GenerateAverageHiringTime (entAll (buildQuery env filter).1 w.table).1] ∧
    (∀ r, r ∈ (entAll (buildQuery env filter).1 w.table).1 ↔
      r ∈ w.table ∧ FilterHolds env filter r) ∧
    (filter.HiringProcessName ≠ "" →
      ∀ r ∈ (entAll (buildQuery env filter).1 w.table).1,
        ∃ p, r.DimProcess = some p ∧ Contains p.Title filter.HiringProcessName) ∧
    (filter.VacancyName ≠ "" →
      ∀ r ∈ (entAll (buildQuery env filter).1 w.table).1,
        ∃ v, r.DimVacancy = some v ∧ Contains v.Title filter.VacancyName) := by
  refine ⟨GetMetrics_calls_of_ent env filter w hAll hd,
    fun r => mem_rows_iff env filter hd w.table r, ?_, ?_⟩
  · intro hne r hr
    exact ((mem_rows_iff env filter hd w.table r).mp hr).2.1 hne
  · intro hne r hr
    exact ((mem_rows_iff env filter hd w.table r).mp hr).2.2.1 hne

theorem GetMetrics_name_filters_conjunctive_witness :
    (sampleEnv.All = entAll ∧ DatesParse sampleEnv scenarioFilter ∧
      scenarioFilter.HiringProcessName ≠ "") ∧
    (entAll (buildQuery sampleEnv scenarioFilter).1 sampleWorld.table).1 = [backendRow] ∧
    ∀ r ∈ (entAll (buildQuery sampleEnv scenarioFilter).1 sampleWorld.table).1,
      ∃ p, r.DimProcess = some p ∧ Contains p.Title scenarioFilter.HiringProcessName :=
  ⟨⟨rfl, by decide, by decide⟩, by decide,
    (GetMetrics_name_filters_conjunctive sampleEnv scenarioFilter sampleWorld rfl
      (by decide)).2.2.1 (by decide)⟩

/-- C7: with the query execution of the specification, `GetMetrics` on the filter with four
empty fields executes the base query, with its three eager-loads and no predicate, and hands
every row of the table to the aggregations; and for every filter, a query that `GetMetrics`
executes has the three eager-loads and as many predicates as the filter has non-empty fields,
such a query being executed whenever the dates of the filter parse. -/
theorem GetMetrics_empty_filter_unconstrained (env : Env V C A) (w : World) :
    (env.All = entAll →
      (GetMetrics env emptyFilter w).2.calls =
        w.calls ++ [.All ⟨true, true, true, []⟩, .ComputingCardInfo w.table,
          .GenerateVacancyStatusSummary w.table, .GenerateAverageHiringTime w.table]) ∧
    (∀ filter q rest,
      (GetMetrics env filter w).2.calls = w.calls ++ Call.All q :: rest →
      q.withDimVacancy = true ∧ q.withDimProcess = true ∧
      q.withHiringProcessCandidates = true ∧
      q.predicates.length = nonEmptyFields filter) ∧
    (∀ filter, DatesParse env filter →
      ∃ q rest, (GetMetrics env filter w).2.calls = w.calls ++ Call.All q :: rest) := by
  have hex : ∀ filter, DatesParse env filter →
      ∃ rest, (GetMetrics env filter w).2.calls =
        w.calls ++ Call.All (buildQuery env filter).1 :: rest := by
    intro filter hd
    have hb := (buildQuery_none_iff env filter).mpr hd
    rcases hq : (env.All (buildQuery env filter).1 w.table).2 with _ | qe
    · rw [GetMetrics_query_ok env filter w hb hq, aggregate_world]
      exact ⟨[.ComputingCardInfo (env.All (buildQuery env filter).1 w.table).1,
        .GenerateVacancyStatusSummary (env.All (buildQuery env filter).1 w.table).1,
        .GenerateAverageHiringTime (env.All (buildQuery env filter).1 w.table).1],
        by simp [World.record]⟩
    · rw [GetMetrics_query_err env filter w qe hb hq]
      exact ⟨[], rfl⟩
  refine ⟨?_, ?_, ?_⟩
  · intro hAll
    have hd : DatesParse env emptyFilter := ⟨Or.inl rfl, Or.inl rfl⟩
    have hq : (buildQuery env emptyFilter).1 = ⟨true, true, true, []⟩ := by
      rw [buildQuery_ok env emptyFilter hd]
      rfl
    have hrows : (entAll ⟨true, true, true, []⟩ w.table).1 = w.table := by
      rw [entAll_all_loaded _ _ rfl rfl rfl]
      simp
    rw [GetMetrics_calls_of_ent env emptyFilter w hAll hd, hq, hrows]
  · intro filter q rest hcalls
    by_cases hd : DatesParse env filter
    · obtain ⟨rest', hrest⟩ := hex filter hd
      rw [hrest] at hcalls
      have hq : (buildQuery env filter).1 = q := by
        have := List.append_cancel_left hcalls
        simpa using (List.cons.inj this).1
      rw [← hq, buildQuery_ok env filter hd]
      refine ⟨rfl, rfl, rfl, ?_⟩
      unfold filterPredicates nonEmptyFields
      by_cases hs0 : filter.StartDate = "" <;> by_cases he0 : filter.EndDate = "" <;>
      by_cases hp : filter.HiringProcessName = "" <;> by_cases hv : filter.VacancyName = "" <;>
      simp [hs0, he0, hp, hv]
    · obtain ⟨e, hbe⟩ :=
        Option.ne_none_iff_exists'.mp (buildQuery_err_of_not_datesParse env filter hd)
      rw [GetMetrics_build_err env filter w e hbe] at hcalls
      simp at hcalls
  · intro filter hd
    obtain ⟨rest, hrest⟩ := hex filter hd
    exact ⟨_, rest, hrest⟩

theorem GetMetrics_empty_filter_unconstrained_witness :
    sampleEnv.All = entAll ∧
    (GetMetrics sampleEnv emptyFilter sampleWorld).2.calls =
      sampleWorld.calls ++ [.All ⟨true, true, true, []⟩,
        .ComputingCardInfo sampleWorld.table,
        .GenerateVacancyStatusSummary sampleWorld.table,
        .GenerateAverageHiringTime sampleWorld.table] ∧
    (buildQuery sampleEnv scenarioFilter).1.predicates.length = nonEmptyFields scenarioFilter :=
  ⟨rfl,
    (GetMetrics_empty_filter_unconstrained sampleEnv sampleWorld).1 rfl,
    ((GetMetrics_empty_filter_unconstrained sampleEnv sampleWorld).2.1 scenarioFilter
      (buildQuery sampleEnv scenarioFilter).1
      [.ComputingCardInfo [backendRow], .GenerateVacancyStatusSummary [backendRow],
        .GenerateAverageHiringTime [backendRow]] (by decide)).2.2.2⟩

end Service
